import Mathlib

/-!
Shallow embedding of the accessibility-conversion pipeline of the
barrierefreiheits-checker repository: the data model shared by the PPTX parser,
the accessibility validator (AccessibilityValidator, src/unnamed/part_007), and
the tagged-PDF generator (PdfUaGenerator, src/unnamed/part_008), together with
the parts of the PPTX parser (src/src/lib/pptx/parser.ts) that the claims need.

Conventions of the embedding:
* TypeScript strings become String, optional fields become Option.
* JavaScript truthiness tests on strings (s is truthy iff s is nonempty) are
  modelled explicitly; the helper jsOr models the JS expression a or-else b on
  string-or-undefined values.
* Wall-clock readings (new Date()) become an explicit Instant argument, so the
  effectful validator becomes a pure function of presentation and clock.
* Numbers that the code only compares and rounds (positions in px) are Int;
  the reading-order confidence in [0,1] is Rat; Math.round x is floor (x + 1/2),
  which is exactly the JS semantics.
* The validator ignores its ConversionProfile argument in the source (the field
  is stored but never read by any check); the embedding keeps the parameter.
-/

namespace Pptx

/-- Issue severity, the closed TS union "error" | "warning" | "info". -/
inductive Severity where
  | error
  | warning
  | info
deriving DecidableEq, Repr

/-- AccessibilityIssue record (src/lib/pptx/types usage throughout part_007 and
parser.ts): stable id, closed type taxonomy (kept as String, as in the TS
literal types), severity, optional locators, bilingual messages, optional
standard references, auto-fix flag, optional context. -/
structure Issue where
  id : String
  type : String
  severity : Severity
  slideNumber : Option Nat := none
  elementId : Option String := none
  elementType : Option String := none
  message : String := ""
  messageDE : String := ""
  wcagCriteria : Option String := none
  pdfuaClause : Option String := none
  suggestion : Option String := none
  suggestionDE : Option String := none
  autoFixable : Bool := false
  context : Option String := none
deriving DecidableEq, Repr

/-- Absolute element position in device-independent px (x, y, width, height). -/
structure Position where
  x : Int
  y : Int
  width : Int
  height : Int
deriving DecidableEq, Repr

/-- One table cell: flattened text, header flag, optional scope attribute. -/
structure TableCell where
  content : String
  isHeader : Bool
  scope : Option String := none
deriving DecidableEq, Repr

/-- TableData payload of a table element. -/
structure TableData where
  rows : Nat
  columns : Nat
  cells : List (List TableCell)
  hasHeaderRow : Bool
  hasHeaderColumn : Bool
deriving DecidableEq, Repr

/-- One list item: text, nesting level, bullet kind ("ordered" or "bullet"). -/
structure ListItem where
  text : String
  level : Nat
  listType : String
deriving DecidableEq, Repr

/-- ListData payload of a list element. -/
structure ListData where
  items : List ListItem
deriving DecidableEq, Repr

/-- The content sub-record of a slide element: flattened text, alt text, the
alt-text tri-state, optional long description. -/
structure ElementContent where
  text : Option String := none
  altText : Option String := none
  altTextStatus : Option String := none
  longDescription : Option String := none
deriving DecidableEq, Repr

/-- SlideElement: a positioned content node of a slide.  The type is the TS
string-literal union (title, subtitle, body, textbox, image, chart, smartart,
table, list, ...). -/
structure SlideElement where
  id : String
  type : String
  semanticRole : String := ""
  position : Position
  content : ElementContent
  isDecorative : Bool := false
  isGrouped : Bool := false
  hyperlink : Option String := none
  tableData : Option TableData := none
  listData : Option ListData := none
  issues : List Issue := []
deriving DecidableEq, Repr

/-- Slide: 1-based number, ordered foreground elements, separate background
elements, reading order by element id with a confidence score, per-slide
issues. -/
structure Slide where
  number : Nat
  id : String
  layout : String := ""
  elements : List SlideElement
  readingOrder : List String
  readingOrderConfidence : Rat
  backgroundElements : List SlideElement := []
  issues : List Issue := []
deriving DecidableEq, Repr

/-- Denormalized stats rollup computed by the parser (calculateStats). -/
structure Stats where
  totalElements : Nat := 0
  imagesWithAltText : Nat := 0
  imagesWithoutAltText : Nat := 0
  decorativeImages : Nat := 0
  tables : Nat := 0
  lists : Nat := 0
  links : Nat := 0
deriving DecidableEq, Repr

/-- Document metadata: title and language are plain strings (the parser
defaults them to "" and "de"), the rest optional. -/
structure PresMetadata where
  title : String
  language : String
  author : Option String := none
  subject : Option String := none
  keywords : Option (List String) := none
deriving DecidableEq, Repr

/-- Presentation: the root aggregate produced by the parser. -/
structure Presentation where
  metadata : PresMetadata
  slides : List Slide
  issues : List Issue := []
  stats : Stats := {}
deriving DecidableEq, Repr

/-- Auto-fix toggles of a conversion profile. -/
structure AutoFixOptions where
  generateMissingAltText : Bool
  markUncaptionedAsDecorative : Bool
  fixEmptyTitles : Bool
  setDocumentLanguage : Bool
  fixReadingOrder : Bool
  convertPseudoTables : Bool
deriving DecidableEq, Repr

/-- Export options of a conversion profile. -/
structure ExportOptions where
  pdfVersion : String
  pdfUaConformance : String
  embedFonts : Bool
  includeBookmarks : Bool
  includeLinks : Bool
  taggedPdf : Bool
  linearized : Bool
deriving DecidableEq, Repr

/-- ConversionProfile: named immutable bundle of tag mapping (type to role) and
options.  The validator stores but never reads it. -/
structure ConversionProfile where
  name : String
  id : String
  tagMapping : List (String × String)
  autoFixOptions : AutoFixOptions
  exportOptions : ExportOptions
deriving DecidableEq, Repr

/-- One wall-clock reading, carrying the two renderings the report code uses:
toISOString and toLocaleDateString with the de-DE locale. -/
structure Instant where
  iso : String
  deDE : String
deriving DecidableEq, Repr

/-- JS expression a or-else b where a is string-or-undefined: the fallback is
taken when a is undefined or empty (falsy). -/
def jsOr (a : Option String) (b : String) : String :=
  match a with
  | some s => if s = "" then b else s
  | none => b

/-- JS expression a or-else b on two string-or-undefined values, producing a
possibly undefined value. -/
def jsOrOpt (a b : Option String) : Option String :=
  match a with
  | some s => if s = "" then b else some s
  | none => b

/-- JS Math.round on a rational: floor (q + 1/2), half rounds toward plus
infinity, exactly as in JS. -/
def jsRound (q : Rat) : Int :=
  Int.floor (q + 1/2)

/-- The rational 7/10, the reading-order confidence threshold, written in
normalized form. -/
def ratSevenTenths : Rat := ⟨7, 10, by decide, by decide⟩

/-- JS String.prototype.trim, on the character list of the string (whitespace
here is space, tab, CR, LF — the characters occurring in this pipeline). -/
def jsTrim (s : String) : String :=
  String.mk (((s.data.dropWhile Char.isWhitespace).reverse.dropWhile
    Char.isWhitespace).reverse)

/-- JS String.prototype.toLowerCase restricted to the ASCII repertoire the
closed word lists of the validator use. -/
def jsToLower (s : String) : String :=
  String.mk (s.data.map Char.toLower)

/-- Character-list prefix test. -/
def charsStartWith : List Char → List Char → Bool
  | [], _ => true
  | _ :: _, [] => false
  | p :: ps, c :: cs => (p = c) && charsStartWith ps cs

/-- JS String.prototype.startsWith. -/
def jsStartsWith (s pat : String) : Bool :=
  charsStartWith pat.data s.data

/-- JS String.prototype.endsWith (the anchored filename regex test of the
validator is an ends-with test on the lowered string). -/
def jsEndsWith (s pat : String) : Bool :=
  charsStartWith pat.data.reverse s.data.reverse

/-- JS String.prototype.slice from a character index to the end. -/
def jsDrop (s : String) (n : Nat) : String :=
  String.mk (s.data.drop n)

/-- Number of maximal non-whitespace runs, tracking whether a run is open. -/
def countWordRuns : Bool → List Char → Nat
  | _, [] => 0
  | inWord, c :: rest =>
    if c.isWhitespace then countWordRuns false rest
    else (if inWord then 0 else 1) + countWordRuns true rest

/-- Length of the JS array s.split on a whitespace-plus regex for a string
without leading or trailing whitespace (the validator applies it to a trimmed
string): one empty token for the empty string, else the number of words. -/
def jsWordCount (s : String) : Nat :=
  if s.data.isEmpty then 1 else countWordRuns false s.data

end Pptx

namespace Validator

open Pptx

/-- WCAG_CRITERIA table of part_007 (wcag id, English title, German title),
restricted to the fields the report text uses. -/
def wcagCriteriaTable : List (String × String × String) :=
  [ ("1.1.1", "Non-text Content", "Nicht-Text-Inhalt")
  , ("1.3.1", "Info and Relationships", "Informationen und Beziehungen")
  , ("1.3.2", "Meaningful Sequence", "Bedeutungstragende Reihenfolge")
  , ("1.4.3", "Contrast (Minimum)", "Kontrast (Minimum)")
  , ("2.4.2", "Page Titled", "Seite mit Titel versehen")
  , ("2.4.4", "Link Purpose (In Context)", "Linkzweck (im Kontext)")
  , ("2.4.6", "Headings and Labels", "Überschriften und Beschriftungen")
  , ("3.1.1", "Language of Page", "Sprache der Seite")
  , ("3.1.2", "Language of Parts", "Sprache von Teilen")
  , ("4.1.2", "Name, Role, Value", "Name, Rolle, Wert") ]

/-- Document-wide validation (validateDocument): missing title is an error,
missing or too-short language is an error, missing author is an info. -/
def validateDocument (p : Presentation) : List Issue :=
  (if (jsTrim p.metadata.title = "") then
    [{ id := "doc-no-title", type := "missing_document_title"
     , severity := Severity.error
     , message := "Document title is missing"
     , messageDE := "Dokumenttitel fehlt"
     , wcagCriteria := some "2.4.2", pdfuaClause := some "7.1"
     , suggestion := some "Add a document title in File > Info > Properties"
     , suggestionDE := some "Fügen Sie einen Dokumenttitel unter Datei > Info > Eigenschaften hinzu"
     , autoFixable := true }]
   else []) ++
  (if (p.metadata.language = "" ∨ p.metadata.language = "und" ∨
       p.metadata.language.length < 2) then
    [{ id := "doc-no-language", type := "missing_language"
     , severity := Severity.error
     , message := "Document language is not defined"
     , messageDE := "Dokumentsprache ist nicht definiert"
     , wcagCriteria := some "3.1.1", pdfuaClause := some "7.2"
     , suggestion := some "Set the document language in the presentation settings"
     , suggestionDE := some "Setzen Sie die Dokumentsprache in den Präsentationseinstellungen"
     , autoFixable := true }]
   else []) ++
  (if (jsTrim (jsOr p.metadata.author "") = "") then
    [{ id := "doc-no-author", type := "missing_metadata"
     , severity := Severity.info
     , message := "Document author is not set"
     , messageDE := "Dokumentautor ist nicht gesetzt"
     , suggestion := some "Consider adding author information for better metadata"
     , suggestionDE := some "Erwägen Sie, Autorinformationen für bessere Metadaten hinzuzufügen"
     , autoFixable := false }]
   else [])

/-- Slide-title check (validateSlideTitle): warning when no title element with
nonempty text exists. -/
def validateSlideTitle (slide : Slide) : List Issue :=
  let titleElement := slide.elements.find?
    (fun e => e.type = "title" ∧ ¬ jsTrim (jsOr e.content.text "") = "")
  match titleElement with
  | some _ => []
  | none =>
    [{ id := s!"slide-{slide.number}-no-title", type := "missing_title"
     , severity := Severity.warning
     , slideNumber := some slide.number
     , message := s!"Slide {slide.number} has no title"
     , messageDE := s!"Folie {slide.number} hat keinen Titel"
     , wcagCriteria := some "2.4.2", pdfuaClause := some "7.4"
     , suggestion := some "Add a title to enable navigation via headings"
     , suggestionDE := some "Fügen Sie einen Titel hinzu, um Navigation über Überschriften zu ermöglichen"
     , autoFixable := false }]

/-- Axis-aligned bounding-box overlap test of findOverlappingElements. -/
def boxesOverlap (a b : Position) : Prop :=
  (a.x < b.x + b.width ∧ a.x + a.width > b.x) ∧
  (a.y < b.y + b.height ∧ a.y + a.height > b.y)

instance (a b : Position) : Decidable (boxesOverlap a b) := by
  unfold boxesOverlap; infer_instance

/-- findOverlappingElements: all pairs (i, j) with i before j in list order
whose bounding boxes overlap, in the nested-loop order of the source. -/
def findOverlappingElements : List SlideElement → List (SlideElement × SlideElement)
  | [] => []
  | e :: rest =>
    ((rest.filter (fun f => decide (boxesOverlap e.position f.position))).map
      (fun f => (e, f))) ++ findOverlappingElements rest

/-- Reading-order checks (validateReadingOrder): low-confidence warning plus
one info issue per overlapping pair; the overlap issue id embeds both element
ids in list order. -/
def validateReadingOrder (slide : Slide) : List Issue :=
  (if slide.readingOrderConfidence < ratSevenTenths then
    let conf := jsRound (slide.readingOrderConfidence * 100)
    [{ id := s!"slide-{slide.number}-order-uncertain", type := "reading_order_unclear"
     , severity := Severity.warning
     , slideNumber := some slide.number
     , message := s!"Reading order on slide {slide.number} may be incorrect"
     , messageDE := s!"Lesereihenfolge auf Folie {slide.number} ist möglicherweise unkorrekt"
     , wcagCriteria := some "1.3.2", pdfuaClause := some "7.1"
     , suggestion := some "Review and manually adjust reading order if needed"
     , suggestionDE := some "Überprüfen und ggf. manuell anpassen"
     , autoFixable := false
     , context := some s!"Confidence: {conf}%" }]
   else []) ++
  ((findOverlappingElements slide.elements).map (fun pr =>
    { id := s!"slide-{slide.number}-overlap-{pr.1.id}-{pr.2.id}"
    , type := "overlapping_elements"
    , severity := Severity.info
    , slideNumber := some slide.number
    , elementId := some pr.1.id
    , message := s!"Elements \"{pr.1.id}\" and \"{pr.2.id}\" overlap"
    , messageDE := s!"Elemente \"{pr.1.id}\" und \"{pr.2.id}\" überlappen sich"
    , wcagCriteria := some "1.3.2"
    , suggestion := some "Ensure overlapping elements have correct reading order"
    , suggestionDE := some "Stellen Sie sicher, dass überlappende Elemente die richtige Lesereihenfolge haben"
    , autoFixable := false }))

/-- Low-quality alt-text heuristic (isLowQualityAltText): filename suffix,
generic single-word label, or fewer than two whitespace-separated words. -/
def isLowQualityAltText (altText : String) : Bool :=
  let lowered := jsTrim (jsToLower altText)
  let fileExts := [".jpg", ".jpeg", ".png", ".gif", ".bmp", ".svg", ".webp"]
  let generic := ["bild", "image", "foto", "photo", "grafik", "graphic",
                  "diagramm", "chart", "logo", "icon", "screenshot",
                  "untitled", "placeholder"]
  let allDigits := fun (s : String) => s.data.all Char.isDigit
  fileExts.any (fun ext => jsEndsWith lowered ext) ||
  generic.any (fun g => lowered = g) ||
  (jsStartsWith lowered "img" && allDigits (jsDrop lowered 3)) ||
  (jsStartsWith lowered "picture" && allDigits (jsDrop lowered 7)) ||
  decide (jsWordCount lowered < 2)

/-- German and English display names for element types (getElementTypeName
and its DE variant), restricted to the image-like and table types. -/
def elementTypeName (t : String) : String :=
  if t = "image" then "Image"
  else if t = "chart" then "Chart"
  else if t = "smartart" then "SmartArt"
  else if t = "table" then "Table"
  else "Element"

/-- German element type name. -/
def elementTypeNameDE (t : String) : String :=
  if t = "image" then "Bild"
  else if t = "chart" then "Diagramm"
  else if t = "smartart" then "SmartArt"
  else if t = "table" then "Tabelle"
  else "Element"

/-- Alt-text check for image-like elements (validateImageAltText): decorative
elements pass; missing or effectively empty alt text is an error; otherwise a
low-quality alt text is a warning. -/
def validateImageAltText (element : SlideElement) (slideNumber : Nat) : List Issue :=
  if element.isDecorative then []
  else if element.content.altTextStatus = some "missing" ∨
          jsTrim (jsOr element.content.altText "") = "" then
    let nameEN := elementTypeName element.type
    let nameDE := elementTypeNameDE element.type
    [{ id := s!"slide-{slideNumber}-{element.id}-no-alt", type := "missing_alt_text"
     , severity := Severity.error
     , slideNumber := some slideNumber
     , elementId := some element.id
     , elementType := some element.type
     , message := s!"{nameEN} is missing alt text"
     , messageDE := s!"{nameDE} hat keinen Alternativtext"
     , wcagCriteria := some "1.1.1", pdfuaClause := some "7.3"
     , suggestion := some "Add descriptive alt text or mark as decorative"
     , suggestionDE := some "Fügen Sie beschreibenden Alt-Text hinzu oder markieren Sie als dekorativ"
     , autoFixable := false }]
  else
    let alt := jsOr element.content.altText ""
    if isLowQualityAltText alt then
      [{ id := s!"slide-{slideNumber}-{element.id}-poor-alt", type := "insufficient_alt_text"
       , severity := Severity.warning
       , slideNumber := some slideNumber
       , elementId := some element.id
       , elementType := some element.type
       , message := "Alt text may not be sufficiently descriptive"
       , messageDE := "Alt-Text ist möglicherweise nicht ausreichend beschreibend"
       , wcagCriteria := some "1.1.1", pdfuaClause := some "7.3"
       , suggestion := some "Review alt text: avoid file names, generic descriptions, or overly short text"
       , suggestionDE := some "Überprüfen Sie den Alt-Text: Vermeiden Sie Dateinamen, generische Beschreibungen oder zu kurzen Text"
       , autoFixable := false
       , context := some s!"Current: \"{alt}\"" }]
    else []

/-- Table checks (validateTableStructure): missing header row and column on a
multi-row table is a warning; any empty cell is an info. -/
def validateTableStructure (element : SlideElement) (slideNumber : Nat) : List Issue :=
  match element.tableData with
  | none => []
  | some tableData =>
    (if (¬ tableData.hasHeaderRow) ∧ (¬ tableData.hasHeaderColumn) ∧ tableData.rows > 1 then
      [{ id := s!"slide-{slideNumber}-{element.id}-no-header", type := "table_missing_headers"
       , severity := Severity.warning
       , slideNumber := some slideNumber
       , elementId := some element.id
       , elementType := some "table"
       , message := "Table has no defined header row or column"
       , messageDE := "Tabelle hat keine definierte Kopfzeile oder -spalte"
       , wcagCriteria := some "1.3.1", pdfuaClause := some "7.5"
       , suggestion := some "Mark the first row as header for screen reader navigation"
       , suggestionDE := some "Markieren Sie die erste Zeile als Kopf für Screenreader-Navigation"
       , autoFixable := true }]
     else []) ++
    (let emptyCellCount :=
      (tableData.cells.map (fun row => (row.filter (fun c => jsTrim c.content = "")).length)).sum
     if emptyCellCount > 0 then
      [{ id := s!"slide-{slideNumber}-{element.id}-empty-cells", type := "table_empty_cells"
       , severity := Severity.info
       , slideNumber := some slideNumber
       , elementId := some element.id
       , elementType := some "table"
       , message := s!"Table has {emptyCellCount} empty cells"
       , messageDE := s!"Tabelle hat {emptyCellCount} leere Zellen"
       , wcagCriteria := some "1.3.1"
       , suggestion := some "Consider using \"-\" or \"N/A\" for intentionally empty cells"
       , suggestionDE := some "Erwaegen Sie \"-\" oder \"k.A.\" fuer absichtlich leere Zellen"
       , autoFixable := false }]
     else [])

/-- Link-text check (validateLink): one warning when the trimmed text matches a
closed list of non-descriptive phrases case-insensitively. -/
def validateLink (element : SlideElement) (slideNumber : Nat) : List Issue :=
  let text := jsTrim (jsOr element.content.text "")
  let unclear := ["hier", "klick", "click here", "more", "mehr", "link",
                  "read more", "weiterlesen", "details"]
  if unclear.any (fun pat => jsToLower text = pat) then
    [{ id := s!"slide-{slideNumber}-{element.id}-unclear-link", type := "unclear_link_text"
     , severity := Severity.warning
     , slideNumber := some slideNumber
     , elementId := some element.id
     , message := s!"Link text \"{text}\" is not descriptive"
     , messageDE := s!"Linktext \"{text}\" ist nicht beschreibend"
     , wcagCriteria := some "2.4.4", pdfuaClause := some "7.17"
     , suggestion := some "Use descriptive link text that explains the destination"
     , suggestionDE := some "Verwenden Sie beschreibenden Linktext, der das Ziel erklärt"
     , autoFixable := false }]
  else []

/-- Per-element validation (validateElement): alt text for image-like types,
structure for tables, link text, and empty non-decorative text elements. -/
def validateElement (element : SlideElement) (slideNumber : Nat) : List Issue :=
  (if element.type = "image" ∨ element.type = "chart" ∨ element.type = "smartart" then
    validateImageAltText element slideNumber
   else []) ++
  (if element.type = "table" then validateTableStructure element slideNumber else []) ++
  (match element.hyperlink with
   | some _ => validateLink element slideNumber
   | none => []) ++
  (if (element.type = "body" ∨ element.type = "textbox") ∧
      jsTrim (jsOr element.content.text "") = "" ∧ ¬ element.isDecorative then
    [{ id := s!"slide-{slideNumber}-{element.id}-empty", type := "empty_element"
     , severity := Severity.info
     , slideNumber := some slideNumber
     , elementId := some element.id
     , elementType := some element.type
     , message := "Empty text element that is not marked as decorative"
     , messageDE := "Leeres Textelement, das nicht als dekorativ markiert ist"
     , suggestion := some "Remove empty element or mark as decorative"
     , suggestionDE := some "Leeres Element entfernen oder als dekorativ markieren"
     , autoFixable := true }]
   else [])

/-- Quantized y band: Math.round (y / 30) * 30, written with floor division
since Math.round x is floor (x + 1/2). -/
def quantY (y : Int) : Int :=
  (Int.fdiv (y + 15) 30) * 30

/-- Quantized band of one element. -/
def quantE (e : SlideElement) : Int :=
  quantY e.position.y

/-- The distinct quantized y keys in first-encounter order, as iterating the
JS Map yields them. -/
def groupKeys (l : List SlideElement) : List Int :=
  l.foldl (fun acc e => if acc.contains (quantE e) then acc else acc ++ [quantE e]) []

/-- Grouping of the pseudo-table detector: the JS Map keyed by quantized y with
insertion-order iteration, each group holding its members in encounter
order. -/
def groupByY (l : List SlideElement) : List (Int × List SlideElement) :=
  (groupKeys l).map (fun k => (k, l.filter (fun e => quantE e = k)))

/-- Grid condition of validatePseudoTables: more than one row band, all bands
of equal size, at least two bands of at least two columns. -/
def pseudoTableCond (textboxes : List SlideElement) : Prop :=
  let rows := groupByY textboxes
  let rowSizes := rows.map (fun r => r.2.length)
  rowSizes.length > 1 ∧ (∀ sz ∈ rowSizes, sz = rowSizes.headD 0) ∧
    rows.length ≥ 2 ∧ rowSizes.headD 0 ≥ 2

instance (l : List SlideElement) : Decidable (pseudoTableCond l) := by
  unfold pseudoTableCond; infer_instance

/-- Pseudo-table detection (validatePseudoTables): at least four textboxes
whose positions quantize into a grid raise one warning per slide. -/
def validatePseudoTables (slide : Slide) : List Issue :=
  let textboxes := slide.elements.filter (fun e => e.type == "textbox")
  if textboxes.length < 4 then []
  else if pseudoTableCond textboxes then
    let rowCount := (groupByY textboxes).length
    let colCount := ((groupByY textboxes).map (fun r => r.2.length)).headD 0
    [{ id := s!"slide-{slide.number}-pseudo-table", type := "pseudo_table"
     , severity := Severity.warning
     , slideNumber := some slide.number
     , message := "Text boxes arranged like a table detected"
     , messageDE := "Textfelder in Tabellenanordnung erkannt"
     , wcagCriteria := some "1.3.1", pdfuaClause := some "7.5"
     , suggestion := some "Convert to a real table for proper accessibility markup"
     , suggestionDE := some "Konvertieren Sie in eine echte Tabelle für korrektes Accessibility-Markup"
     , autoFixable := false
     , context := some s!"{rowCount} rows × {colCount} columns of textboxes" }]
  else []

/-- Background-element check (validateBackgroundElement): a background image
not flagged decorative is an info. -/
def validateBackgroundElement (element : SlideElement) (slideNumber : Nat) : List Issue :=
  if element.type = "image" ∧ ¬ element.isDecorative then
    [{ id := s!"slide-{slideNumber}-bg-{element.id}-not-decorative"
     , type := "background_not_decorative"
     , severity := Severity.info
     , slideNumber := some slideNumber
     , elementId := some element.id
     , elementType := some element.type
     , message := "Background image should be marked as decorative"
     , messageDE := "Hintergrundbild sollte als dekorativ markiert sein"
     , pdfuaClause := some "7.18"
     , suggestion := some "Mark background images as decorative (artifact)"
     , suggestionDE := some "Markieren Sie Hintergrundbilder als dekorativ (Artefakt)"
     , autoFixable := true }]
  else []

/-- Per-slide validation (validateSlide): title, reading order, per-element
checks, pseudo-table detection, background elements, in source order. -/
def validateSlide (slide : Slide) : List Issue :=
  validateSlideTitle slide ++
  validateReadingOrder slide ++
  slide.elements.flatMap (fun e => validateElement e slide.number) ++
  validatePseudoTables slide ++
  slide.backgroundElements.flatMap (fun e => validateBackgroundElement e slide.number)

/-- collectPresentationIssues: global issues, then per slide its issues
followed by the issues of its elements. -/
def collectPresentationIssues (p : Presentation) : List Issue :=
  p.issues ++
  p.slides.flatMap (fun s => s.issues ++ s.elements.flatMap (fun e => e.issues))

/-- The full mutable issue accumulation of validate before report assembly. -/
def allIssues (p : Presentation) : List Issue :=
  validateDocument p ++
  p.slides.flatMap validateSlide ++
  collectPresentationIssues p

/-- deduplicateIssues: keep the first issue per id. -/
def dedupIssues : List String → List Issue → List Issue
  | _, [] => []
  | seen, i :: rest =>
    if seen.contains i.id then dedupIssues seen rest
    else i :: dedupIssues (i.id :: seen) rest

/-- calculateScore: start at 100, subtract 15 per error, 5 per warning, 1 per
info, floor at 0. -/
def calculateScore (errors warnings infos : Nat) : Int :=
  max 0 (100 - (errors : Int) * 15 - (warnings : Int) * 5 - (infos : Int) * 1)

/-- Conformance verdict record. -/
structure Conformance where
  wcagLevel : String
  pdfuaLevel : String
  bitvConformant : Bool
deriving DecidableEq, Repr

/-- determineConformance: zero errors and warnings give AAA, zero errors give
AA, up to three errors give A and partial PDF/UA, otherwise none. -/
def determineConformance (errors warnings : Nat) : Conformance :=
  if errors = 0 ∧ warnings = 0 then
    { wcagLevel := "AAA", pdfuaLevel := "PDF/UA-1", bitvConformant := true }
  else if errors = 0 then
    { wcagLevel := "AA", pdfuaLevel := "PDF/UA-1", bitvConformant := true }
  else if errors ≤ 3 then
    { wcagLevel := "A", pdfuaLevel := "partial", bitvConformant := false }
  else
    { wcagLevel := "none", pdfuaLevel := "none", bitvConformant := false }

/-- Summary counts of the report. -/
structure ReportSummary where
  total : Nat
  errors : Nat
  warnings : Nat
  info : Nat
  autoFixable : Nat
deriving DecidableEq, Repr

/-- Lines appended for one issue in the English summary. -/
def summaryIssueLinesEN (i : Issue) : List String :=
  [s!"• {i.message}"] ++
  (match i.slideNumber with
   | some n => [s!"  Slide: {n}"]
   | none => []) ++
  (match i.wcagCriteria with
   | some c => [s!"  WCAG: {c}"]
   | none => []) ++
  [""]

/-- generateSummary: line-oriented English summary of the report. -/
def generateSummary (title : String) (errors warnings : Nat) (issues : List Issue)
    (now : Instant) : String :=
  let docTitle := if title = "" then "Untitled" else title
  let lines : List String :=
    ["=== Accessibility Report ===\n",
     s!"Document: {docTitle}",
     s!"Date: {now.iso}\n"] ++
    (if errors = 0 ∧ warnings = 0 then
      ["✅ No accessibility issues found.\n"]
     else
      [s!"Found {errors} error(s) and {warnings} warning(s).\n"]) ++
    (if errors > 0 then
      "--- Errors (must fix) ---" ::
        (issues.filter (fun i => i.severity = Severity.error)).flatMap summaryIssueLinesEN
     else []) ++
    (if warnings > 0 then
      "--- Warnings (should fix) ---" ::
        (issues.filter (fun i => i.severity = Severity.warning)).flatMap
          (fun i =>
            [s!"• {i.message}"] ++
            (match i.slideNumber with
             | some n => [s!"  Slide: {n}"]
             | none => []) ++
            [""])
     else [])
  String.intercalate "\n" lines

/-- Lines appended for one error issue in the German summary, including the
WCAG title lookup. -/
def summaryIssueLinesDE (i : Issue) : List String :=
  let msg := if i.messageDE = "" then i.message else i.messageDE
  [s!"• {msg}"] ++
  (match i.slideNumber with
   | some n => [s!"  Folie: {n}"]
   | none => []) ++
  (match i.wcagCriteria with
   | some c =>
     let titleDE :=
       match wcagCriteriaTable.find? (fun row => row.1 = c) with
       | some row => row.2.2
       | none => ""
     [s!"  WCAG: {c} - {titleDE}"]
   | none => []) ++
  (match i.suggestionDE with
   | some sug => [s!"  Empfehlung: {sug}"]
   | none => []) ++
  [""]

/-- generateSummaryDE: line-oriented German summary of the report. -/
def generateSummaryDE (title : String) (errors warnings : Nat) (issues : List Issue)
    (now : Instant) : String :=
  let docTitle := if title = "" then "Ohne Titel" else title
  let lines : List String :=
    ["=== Barrierefreiheits-Prüfbericht ===\n",
     s!"Dokument: {docTitle}",
     s!"Datum: {now.deDE}\n"] ++
    (if errors = 0 ∧ warnings = 0 then
      ["✅ Keine Barrierefreiheitsprobleme gefunden.\n"]
     else
      [s!"{errors} Fehler und {warnings} Warnungen gefunden.\n"]) ++
    (if errors > 0 then
      "--- Fehler (müssen behoben werden) ---" ::
        (issues.filter (fun i => i.severity = Severity.error)).flatMap summaryIssueLinesDE
     else []) ++
    (if warnings > 0 then
      "--- Warnungen (sollten behoben werden) ---" ::
        (issues.filter (fun i => i.severity = Severity.warning)).flatMap
          (fun i =>
            let msg := if i.messageDE = "" then i.message else i.messageDE
            [s!"• {msg}"] ++
            (match i.slideNumber with
             | some n => [s!"  Folie: {n}"]
             | none => []) ++
            (match i.suggestionDE with
             | some sug => [s!"  Empfehlung: {sug}"]
             | none => []) ++
            [""])
     else [])
  String.intercalate "\n" lines

/-- generateRecommendations: fixed advice texts keyed by present issue types,
in source order. -/
def generateRecommendations (issues : List Issue) : List String :=
  let types := issues.map (fun i => i.type)
  (if types.contains "missing_alt_text" then
    ["Add alternative text to all meaningful images. In PowerPoint: Right-click image > Edit Alt Text."]
   else []) ++
  (if types.contains "missing_title" || types.contains "missing_document_title" then
    ["Ensure all slides have titles and the document has a title. This aids navigation with assistive technology."]
   else []) ++
  (if types.contains "table_missing_headers" then
    ["Mark table headers properly. In PowerPoint: Table Design > Header Row checkbox."]
   else []) ++
  (if types.contains "reading_order_unclear" then
    ["Review reading order using the Selection Pane (Home > Arrange > Selection Pane)."]
   else []) ++
  (if types.contains "pseudo_table" then
    ["Convert text boxes arranged as tables into real tables for proper structure and accessibility."]
   else []) ++
  (if types.contains "missing_language" then
    ["Set the document language in File > Options > Language."]
   else [])

/-- AccessibilityReport: the output aggregate of generateReport. -/
structure Report where
  timestamp : Instant
  documentTitle : String
  issues : List Issue
  summary : ReportSummary
  conformance : Conformance
  overallScore : Int
  wcagLevel : String
  pdfuaConformant : Bool
  recommendations : List String
  stats : Stats
  reportText : String
  reportTextDE : String
deriving DecidableEq, Repr

/-- generateReport: deduplicate, count by severity, score, derive conformance,
render both summaries, assemble the report record. -/
def generateReport (p : Presentation) (now : Instant) (issues : List Issue) : Report :=
  let uniqueIssues := dedupIssues [] issues
  let errorCount := (uniqueIssues.filter (fun i => i.severity = Severity.error)).length
  let warningCount := (uniqueIssues.filter (fun i => i.severity = Severity.warning)).length
  let infoCount := (uniqueIssues.filter (fun i => i.severity = Severity.info)).length
  let overallScore := calculateScore errorCount warningCount infoCount
  let conformance := determineConformance errorCount warningCount
  { timestamp := now
  , documentTitle := if p.metadata.title = "" then "Unbenannt" else p.metadata.title
  , issues := uniqueIssues
  , summary :=
    { total := uniqueIssues.length
    , errors := errorCount
    , warnings := warningCount
    , info := infoCount
    , autoFixable := (uniqueIssues.filter (fun i => i.autoFixable)).length }
  , conformance := conformance
  , overallScore := overallScore
  , wcagLevel := conformance.wcagLevel
  , pdfuaConformant := errorCount = 0
  , recommendations := generateRecommendations uniqueIssues
  , stats := p.stats
  , reportText := generateSummary p.metadata.title errorCount warningCount uniqueIssues now
  , reportTextDE := generateSummaryDE p.metadata.title errorCount warningCount uniqueIssues now }

/-- validate: run every check, collect model issues, and build the report.
The profile parameter is stored but never read by any check in the source; the
clock is the explicit Instant argument. -/
def validate (p : Presentation) (_profile : Option ConversionProfile) (now : Instant) : Report :=
  generateReport p now (allIssues p)

end Validator

namespace Generator

open Pptx

/-- One node of the in-memory structure tree (PDFStructureElement).  The Pg
page back-reference of the per-page Part node is a PDF object reference and is
outside the pure model; the Scope cell attribute is kept. -/
structure PDFStructureElement where
  role : String
  kids : List PDFStructureElement
  actualText : Option String := none
  altText : Option String := none
  lang : Option String := none
  scopeAttr : Option String := none

/-- Generator options after the constructor has applied its defaults: the
language is always set, defaulting to "de". -/
structure GeneratorOptions where
  documentTitle : Option String := none
  language : String
  includeBookmarks : Bool
  embedFonts : Bool
deriving DecidableEq, Repr

/-- The PdfUaGenerator constructor: options.language or-else "de",
includeBookmarks defaulting to true, embedFonts defaulting to true. -/
def mkGeneratorOptions (documentTitle : Option String) (language : Option String)
    (includeBookmarks : Option Bool) (embedFonts : Option Bool) : GeneratorOptions :=
  { documentTitle := documentTitle
  , language := jsOr language "de"
  , includeBookmarks := includeBookmarks.getD true
  , embedFonts := embedFonts.getD true }

/-- The document metadata fields written by setMetadata. -/
structure PdfMetadata where
  title : String
  language : String
  author : Option String := none
  subject : Option String := none
  keywords : Option (List String) := none
  creator : String
  producer : String
deriving DecidableEq, Repr

/-- setMetadata: title is options.documentTitle or-else the model title
or-else a fallback; the language is options.language or-else the model
language or-else "de"; author, subject and keywords are copied when truthy.
No sanitization is applied to any of these fields in the source. -/
def setMetadata (opts : GeneratorOptions) (p : Presentation) : PdfMetadata :=
  { title := jsOr opts.documentTitle (jsOr (some p.metadata.title) "Unbenannte Präsentation")
  , language := if opts.language = "" then jsOr (some p.metadata.language) "de"
                else opts.language
  , author := match p.metadata.author with
              | some a => if a = "" then none else some a
              | none => none
  , subject := match p.metadata.subject with
               | some s => if s = "" then none else some s
               | none => none
  , keywords := p.metadata.keywords
  , creator := "Barrierefreiheit-Plattform PDF/UA Generator"
  , producer := "Barrierefreiheit-Plattform (https://barrierefreiheit.example.de)" }

/-- The JS Map built in getOrderedElements maps each element id to the last
element carrying it; lookup is find? over the reversed list. -/
def elementMapGet (elements : List SlideElement) (id : String) : Option SlideElement :=
  elements.reverse.find? (fun e => e.id == id)

/-- getOrderedElements: elements referenced by readingOrder in that order,
then the remaining elements in encounter order. -/
def getOrderedElements (slide : Slide) : List SlideElement :=
  (slide.readingOrder.filterMap (fun id => elementMapGet slide.elements id)) ++
  (slide.elements.filter (fun e => !(slide.readingOrder.contains e.id)))

/-- Structure node of one rendered list item (LI with Lbl and LBody kids). -/
def renderListItemStruct (idx : Nat) (item : ListItem) : PDFStructureElement :=
  let bullet := if item.listType = "ordered" then s!"{idx + 1}." else "-"
  { role := "LI"
  , kids :=
    [ { role := "Lbl", kids := [], actualText := some bullet }
    , { role := "LBody", kids := [], actualText := some item.text } ] }

/-- Structure node of one table row (TR with TH and TD kids); the first row is
headed when hasHeaderRow is set. -/
def renderTableRowStruct (isHeaderRow : Bool) (row : List TableCell) : PDFStructureElement :=
  { role := "TR"
  , kids := row.map (fun cell =>
      { role := if cell.isHeader || isHeaderRow then "TH" else "TD"
      , kids := []
      , actualText := some cell.content
      , scopeAttr := cell.scope }) }

/-- The structure-tree node contributed by one non-decorative element
(renderElement dispatch of part_008); the drawing side effects are outside the
pure model, and no branch of the source returns null. -/
def renderElementStruct (lang : Option String) (e : SlideElement) : PDFStructureElement :=
  if e.type = "title" then
    { role := "H1", kids := [], actualText := some (jsOr e.content.text ""), lang := lang }
  else if e.type = "subtitle" then
    { role := "H2", kids := [], actualText := some (jsOr e.content.text ""), lang := lang }
  else if e.type = "list" then
    let items := match e.listData with
                 | some d => d.items
                 | none => []
    { role := "L"
    , kids := items.enum.map (fun pr => renderListItemStruct pr.1 pr.2)
    , lang := lang }
  else if e.type = "table" then
    match e.tableData with
    | none => { role := "Table", kids := [] }
    | some tableData =>
      { role := "Table"
      , kids := tableData.cells.enum.map (fun pr =>
          renderTableRowStruct (pr.1 = 0 && tableData.hasHeaderRow) pr.2)
      , lang := lang }
  else if e.type = "image" then
    { role := "Figure", kids := []
    , altText := some (jsOr e.content.altText "[Bild ohne Alternativtext]")
    , lang := lang }
  else if e.type = "chart" then
    { role := "Figure", kids := []
    , altText := some (jsOr e.content.altText (jsOr e.content.longDescription "Diagramm"))
    , lang := lang }
  else if e.type = "smartart" then
    { role := if (jsOr e.content.altText "") = "" then "L" else "Figure"
    , kids := []
    , altText := e.content.altText
    , lang := lang }
  else
    { role := "P", kids := [], actualText := some (jsOr e.content.text ""), lang := lang }

/-- The renderSlide loop over ordered elements: decorative elements are drawn
as artifacts and contribute no structure node; every other element contributes
exactly one node. -/
def renderKids (lang : Option String) : List SlideElement → List PDFStructureElement
  | [] => []
  | e :: rest =>
    if e.isDecorative then renderKids lang rest
    else renderElementStruct lang e :: renderKids lang rest

/-- The per-page Part node pushed onto the structure tree by renderSlide. -/
def renderSlideStructure (lang : Option String) (slide : Slide) : PDFStructureElement :=
  { role := "Part", kids := renderKids lang (getOrderedElements slide) }

end Generator

namespace Parser

open Pptx

/-- Result of extractAltText: alternative text, decorative flag, optional long
description. -/
structure AltTextInfo where
  altText : Option String := none
  isDecorative : Bool
  longDescription : Option String := none
deriving DecidableEq, Repr

/-- extractAltText over the accessibility attributes of a shape or picture
node: descr and title attributes (undefined when absent) and the vendor
decorative extension flag.  Alt text is descr or-else title; the element is
decorative when the extension flag is set or descr is exactly the empty string
or exactly one space. -/
def extractAltText (descr title : Option String) (decorativeExt : Bool) : AltTextInfo :=
  { altText := jsOrOpt descr title
  , isDecorative := decorativeExt || descr == some "" || descr == some " "
  , longDescription :=
      if ¬ (jsOr title "") = "" ∧ ¬ (jsOr descr "") = "" then descr else none }

/-- determineAltTextStatus: decorative wins; absent or effectively empty alt
text is missing; anything else is present.  The elementType parameter is
unused in the source as well. -/
def determineAltTextStatus (altText : Option String) (isDecorative : Bool)
    (_elementType : String) : String :=
  if isDecorative then "decorative"
  else match altText with
       | none => "missing"
       | some a => if a = "" then "missing"
                   else if jsTrim a = "" then "missing"
                   else "present"

/-- The (isDecorative, altTextStatus) classification a shape or picture
element receives from the parser, combining extractAltText and
determineAltTextStatus as parseShape and parsePicture do. -/
def classifyAlt (descr title : Option String) (decorativeExt : Bool)
    (elementType : String) : Bool × String :=
  let info := extractAltText descr title decorativeExt
  (info.isDecorative, determineAltTextStatus info.altText info.isDecorative elementType)

/-- The TableData record built by parseTable from the source table, given per
row the list of extracted cell texts: row count, column count from the first
row, first row marked header when it has at least one cell. -/
def parseTableData (rows : List (List String)) : TableData :=
  { rows := rows.length
  , columns := (rows.headD []).length
  , cells := rows.enum.map (fun pr =>
      pr.2.map (fun text =>
        { content := text
        , isHeader := pr.1 = 0
        , scope := if pr.1 = 0 then some "col" else none }))
  , hasHeaderRow := decide (¬ (rows.headD []) = [])
  , hasHeaderColumn := false }

/-- The issues parseTable attaches to the element: a missing-header warning
when no header row was derived and the table has more than one row. -/
def parseTableIssues (rows : List (List String)) (id : String) (slideNumber : Nat) :
    List Issue :=
  let tableData := parseTableData rows
  if (¬ tableData.hasHeaderRow) ∧ tableData.rows > 1 then
    [{ id := s!"issue-{id}-no-header", type := "table_missing_headers"
     , severity := Severity.warning
     , slideNumber := some slideNumber
     , elementId := some id
     , elementType := some "table"
     , message := "Table has no header row defined"
     , messageDE := "Tabelle hat keine Kopfzeile definiert"
     , wcagCriteria := some "1.3.1", pdfuaClause := some "7.5"
     , suggestion := some "Mark the first row as table header"
     , suggestionDE := some "Markieren Sie die erste Zeile als Tabellenkopf"
     , autoFixable := true }]
  else []

/-- The table element returned by parseTable. -/
def parseTable (rows : List (List String)) (id : String) (position : Position)
    (slideNumber : Nat) : SlideElement :=
  { id := id
  , type := "table"
  , semanticRole := "Table"
  , position := position
  , content := { altTextStatus := some "present" }
  , isDecorative := false
  , isGrouped := false
  , tableData := some (parseTableData rows)
  , issues := parseTableIssues rows id slideNumber }

end Parser

open Pptx

/-! Concrete inputs used by witnesses and counterexamples. -/

/-- A slide-title element with the given id and text. -/
def exTitle (idStr : String) (txt : String) : SlideElement :=
  { id := idStr, type := "title", position := ⟨0, 0, 100, 20⟩
  , content := { text := some txt } }

/-- A non-decorative image without alt text. -/
def exImgNoAlt : SlideElement :=
  { id := "img1", type := "image", position := ⟨200, 100, 50, 50⟩
  , content := { altTextStatus := some "missing" } }

/-- A positioned textbox with fixed nonempty text. -/
def exTbox (idStr : String) (xv yv : Int) : SlideElement :=
  { id := idStr, type := "textbox", position := ⟨xv, yv, 40, 20⟩
  , content := { text := some "Zelle" } }

/-- Scenario slide 1: only a title. -/
def exSlide1 : Slide :=
  { number := 1, id := "slide-1", elements := [exTitle "t1" "Einleitung"]
  , readingOrder := ["t1"], readingOrderConfidence := 1 }

/-- Scenario slide 2: a title and a title-less image with no alt text. -/
def exSlide2 : Slide :=
  { number := 2, id := "slide-2", elements := [exTitle "t2" "Bilder", exImgNoAlt]
  , readingOrder := ["t2", "img1"], readingOrderConfidence := 1 }

/-- Scenario slide 3: a title and a 2-by-3 grid of positioned text boxes. -/
def exSlide3 : Slide :=
  { number := 3, id := "slide-3"
  , elements := [exTitle "t3" "Daten", exTbox "b1" 100 100, exTbox "b2" 200 100,
                 exTbox "b3" 300 100, exTbox "b4" 100 200, exTbox "b5" 200 200,
                 exTbox "b6" 300 200]
  , readingOrder := ["t3", "b1", "b2", "b3", "b4", "b5", "b6"]
  , readingOrderConfidence := 1 }

/-- The three-slide scenario presentation of the spec, with otherwise clean
metadata so no further findings arise. -/
def exPres5 : Presentation :=
  { metadata := { title := "Quartalsbericht", language := "de", author := some "Referat V" }
  , slides := [exSlide1, exSlide2, exSlide3] }

/-- A presentation with clean metadata and no slides. -/
def exPresBase : Presentation :=
  { metadata := { title := "Testdokument", language := "de", author := some "Autor" }
  , slides := [] }

/-- A fixed clock reading. -/
def exT0 : Instant := ⟨"2024-01-01T00:00:00.000Z", "1.1.2024"⟩

/-- A second clock reading, one day later. -/
def exT1 : Instant := ⟨"2024-01-02T00:00:00.000Z", "2.1.2024"⟩

/-- C1. The conformance derivation follows the exact thresholds: the conformance of the report is determineConformance applied to the deduplicated error and
warning counts; zero errors and zero warnings give the top level (WCAG AAA,
PDF/UA-1, BITV-conformant), zero errors with a warning give AA, one to three
errors give A with partial PDF/UA and non-conformant BITV, more than three
errors give none; one error with zero warnings never carries AAA or AA. -/
theorem conformance_thresholds (p : Presentation) (profile : Option ConversionProfile)
    (now : Instant) (e w : Nat) :
    (Validator.validate p profile now).conformance =
      Validator.determineConformance
        (((Validator.validate p profile now).issues.filter
          (fun i => i.severity = Severity.error)).length)
        (((Validator.validate p profile now).issues.filter
          (fun i => i.severity = Severity.warning)).length) ∧
    (e = 0 ∧ w = 0 →
      Validator.determineConformance e w = ⟨"AAA", "PDF/UA-1", true⟩) ∧
    (e = 0 ∧ 0 < w →
      Validator.determineConformance e w = ⟨"AA", "PDF/UA-1", true⟩) ∧
    (1 ≤ e ∧ e ≤ 3 →
      Validator.determineConformance e w = ⟨"A", "partial", false⟩) ∧
    (3 < e →
      Validator.determineConformance e w = ⟨"none", "none", false⟩) ∧
    (e = 1 ∧ w = 0 →
      ¬ (Validator.determineConformance e w).wcagLevel = "AAA" ∧
      ¬ (Validator.determineConformance e w).wcagLevel = "AA") := by
  refine ⟨?_, ?_, ?_, ?_, ?_, ?_⟩
  · simp only [Validator.validate, Validator.generateReport]
  · rintro ⟨rfl, rfl⟩; rfl
  · rintro ⟨rfl, hw⟩
    have hne : w ≠ 0 := by omega
    simp [Validator.determineConformance, hne]
  · rintro ⟨h1, h2⟩
    have hne : ¬ e = 0 := by omega
    simp [Validator.determineConformance, hne, h2]
  · intro h
    have hne : ¬ e = 0 := by omega
    have hgt : ¬ e ≤ 3 := by omega
    simp [Validator.determineConformance, hne, hgt]
  · rintro ⟨rfl, rfl⟩
    decide

/-- Witness for C1 at concrete counts. -/
theorem conformance_thresholds_witness :
    Validator.determineConformance 0 0 = ⟨"AAA", "PDF/UA-1", true⟩ ∧
    Validator.determineConformance 0 2 = ⟨"AA", "PDF/UA-1", true⟩ ∧
    Validator.determineConformance 1 0 = ⟨"A", "partial", false⟩ ∧
    Validator.determineConformance 4 5 = ⟨"none", "none", false⟩ ∧
    ¬ (Validator.determineConformance 1 0).wcagLevel = "AAA" := by
  refine ⟨?_, ?_, ?_, ?_, ?_⟩
  · exact (conformance_thresholds exPresBase none exT0 0 0).2.1 ⟨rfl, rfl⟩
  · exact (conformance_thresholds exPresBase none exT0 0 2).2.2.1 ⟨rfl, by decide⟩
  · exact (conformance_thresholds exPresBase none exT0 1 0).2.2.2.1 ⟨by decide, by decide⟩
  · exact (conformance_thresholds exPresBase none exT0 4 5).2.2.2.2.1 (by decide)
  · exact ((conformance_thresholds exPresBase none exT0 1 0).2.2.2.2.2 ⟨rfl, rfl⟩).1

/-- C2. The overall score of the report is calculateScore applied to the
deduplicated counts, calculateScore equals max 0 of 100 minus 15 per error,
5 per warning and 1 per info, and adding one error lowers the score by exactly
15 clamped at 0 (strictly when the score was positive); one warning lowers it
by exactly 5 clamped at 0 (strictly when positive). -/
theorem score_formula (p : Presentation) (profile : Option ConversionProfile)
    (now : Instant) (e w i : Nat) :
    (Validator.validate p profile now).overallScore =
      Validator.calculateScore
        (((Validator.validate p profile now).issues.filter
          (fun j => j.severity = Severity.error)).length)
        (((Validator.validate p profile now).issues.filter
          (fun j => j.severity = Severity.warning)).length)
        (((Validator.validate p profile now).issues.filter
          (fun j => j.severity = Severity.info)).length) ∧
    Validator.calculateScore e w i =
      max 0 (100 - 15 * (e : Int) - 5 * (w : Int) - 1 * (i : Int)) ∧
    Validator.calculateScore (e + 1) w i =
      max 0 (Validator.calculateScore e w i - 15) ∧
    Validator.calculateScore e (w + 1) i =
      max 0 (Validator.calculateScore e w i - 5) ∧
    (0 < Validator.calculateScore e w i →
      Validator.calculateScore (e + 1) w i < Validator.calculateScore e w i ∧
      Validator.calculateScore e (w + 1) i < Validator.calculateScore e w i) := by
  refine ⟨?_, ?_, ?_, ?_, ?_⟩
  · simp only [Validator.validate, Validator.generateReport]
  · unfold Validator.calculateScore; congr 1; ring
  · simp only [Validator.calculateScore, max_def]
    split_ifs <;> push_cast <;> omega
  · simp only [Validator.calculateScore, max_def]
    split_ifs <;> push_cast <;> omega
  · intro h
    constructor <;>
      (simp only [Validator.calculateScore, max_def] at h ⊢ ;
       split_ifs at h ⊢ <;> push_cast at h ⊢ <;> omega)

/-- Witness for C2 at concrete counts with positive score. -/
theorem score_formula_witness :
    Validator.calculateScore 1 1 0 = 80 ∧
    Validator.calculateScore 2 1 0 = 65 ∧
    Validator.calculateScore 2 1 0 < Validator.calculateScore 1 1 0 ∧
    Validator.calculateScore 1 2 0 < Validator.calculateScore 1 1 0 := by
  have h := (score_formula exPresBase none exT0 1 1 0).2.2.2.2 (by decide)
  exact ⟨by decide, by decide, h.1, h.2⟩

/-- C3 counterexample. The source reads the wall clock inside generateReport
and both summary generators, so two runs of validate on the same presentation
and profile at different clock readings produce different timestamps and
different rendered text summaries: the reports are not byte-identical. -/
theorem validate_two_runs_differ :
    ¬ exT0 = exT1 ∧
    ¬ (Validator.validate exPresBase none exT0).reportText =
        (Validator.validate exPresBase none exT1).reportText ∧
    ¬ (Validator.validate exPresBase none exT0).timestamp =
        (Validator.validate exPresBase none exT1).timestamp := by
  decide

/-- C3 (corrected). For a fixed presentation and profile the validator is
deterministic once the clock reading is fixed, and everything except the
timestamp field and the two rendered text summaries is independent of the
clock: issue list (hence ids and order), summary counts, conformance, score,
document title and recommendations agree across runs at different times. -/
theorem validate_deterministic_modulo_clock (p : Presentation)
    (profile : Option ConversionProfile) (t1 t2 : Instant) :
    (Validator.validate p profile t1).issues = (Validator.validate p profile t2).issues ∧
    (Validator.validate p profile t1).summary = (Validator.validate p profile t2).summary ∧
    (Validator.validate p profile t1).conformance =
      (Validator.validate p profile t2).conformance ∧
    (Validator.validate p profile t1).overallScore =
      (Validator.validate p profile t2).overallScore ∧
    (Validator.validate p profile t1).documentTitle =
      (Validator.validate p profile t2).documentTitle ∧
    (Validator.validate p profile t1).recommendations =
      (Validator.validate p profile t2).recommendations ∧
    (t1 = t2 → Validator.validate p profile t1 = Validator.validate p profile t2) :=
  ⟨rfl, rfl, rfl, rfl, rfl, rfl, fun h => by rw [h]⟩

/-- Witness for C3 (corrected) at a concrete presentation and clock. -/
theorem validate_deterministic_modulo_clock_witness :
    Validator.validate exPresBase none exT0 = Validator.validate exPresBase none exT0 :=
  (validate_deterministic_modulo_clock exPresBase none exT0 exT0).2.2.2.2.2.2 rfl

/-- C5 counterexample. On the three-slide scenario (slide 2 a title-less image
with no alt text, slide 3 a 2-by-3 grid of text boxes, no other findings) the
report does contain exactly one missing_alt_text error on slide 2 and one
pseudo_table warning on slide 3, but its overall score is 80, not 85: the
pseudo_table warning also subtracts 5. -/
theorem scenario_score_not_85 :
    (Validator.validate exPres5 none exT0).issues.map
      (fun i => (i.type, i.severity, i.slideNumber)) =
      [("missing_alt_text", Severity.error, some 2),
       ("pseudo_table", Severity.warning, some 3)] ∧
    ¬ (Validator.validate exPres5 none exT0).overallScore = 85 := by
  decide

/-- C5 (corrected). The scenario report holds exactly one missing_alt_text
error on slide 2 and one pseudo_table warning on slide 3, and its overall
score is 80 = 100 - 15 - 5, since the warning also costs 5 points. -/
theorem scenario_report :
    (Validator.validate exPres5 none exT0).issues.map
      (fun i => (i.type, i.severity, i.slideNumber)) =
      [("missing_alt_text", Severity.error, some 2),
       ("pseudo_table", Severity.warning, some 3)] ∧
    (Validator.validate exPres5 none exT0).summary.errors = 1 ∧
    (Validator.validate exPres5 none exT0).summary.warnings = 1 ∧
    (Validator.validate exPres5 none exT0).overallScore = 80 := by
  decide

/-- A presentation whose model metadata carries an English language tag. -/
def exPresEN : Presentation :=
  { metadata := { title := "Annual Report", language := "en" }
  , slides := [] }

/-- The generator options produced by the constructor when the caller passes
no options, as in generateAccessiblePdf with a bare presentation. -/
def exOptsDefault : Generator.GeneratorOptions :=
  Generator.mkGeneratorOptions none none none none

/-- C8 counterexample. With default generator options the language written to
the output metadata is the option default "de", not the language set in the
model: the constructor always fills options.language (or-else "de"), so
setMetadata never reads the model language. -/
theorem metadata_language_not_from_model :
    exPresEN.metadata.language = "en" ∧
    (Generator.setMetadata exOptsDefault exPresEN).language = "de" ∧
    ¬ (Generator.setMetadata exOptsDefault exPresEN).language =
        exPresEN.metadata.language := by
  decide

/-- C8 (corrected). The model title does appear verbatim (unsanitized) in the
output metadata whenever no documentTitle option overrides it and the title is
nonempty, and verbatim as the report documentTitle when nonempty; the output
language, however, is always the constructor-filled option language (the model
language is consulted only when the option is empty, which the constructor
prevents), and a language tag is always present. -/
theorem metadata_roundtrip (p : Presentation) (lang : Option String)
    (ib ef : Option Bool) (profile : Option ConversionProfile) (now : Instant) :
    (¬ p.metadata.title = "" →
      (Generator.setMetadata (Generator.mkGeneratorOptions none lang ib ef) p).title =
        p.metadata.title) ∧
    (¬ p.metadata.title = "" →
      (Validator.validate p profile now).documentTitle = p.metadata.title) ∧
    (Generator.setMetadata (Generator.mkGeneratorOptions none lang ib ef) p).language =
      jsOr lang "de" ∧
    ¬ (Generator.setMetadata (Generator.mkGeneratorOptions none lang ib ef) p).language
        = "" := by
  refine ⟨?_, ?_, ?_, ?_⟩
  · intro h
    simp [Generator.setMetadata, Generator.mkGeneratorOptions, jsOr, h]
  · intro h
    simp [Validator.validate, Validator.generateReport, h]
  · have hne : ¬ jsOr lang "de" = "" := by
      unfold jsOr
      match lang with
      | none => decide
      | some s =>
        by_cases hs : s = "" <;> simp [hs]
    simp [Generator.setMetadata, Generator.mkGeneratorOptions, hne]
  · have hne : ¬ jsOr lang "de" = "" := by
      unfold jsOr
      match lang with
      | none => decide
      | some s =>
        by_cases hs : s = "" <;> simp [hs]
    simp [Generator.setMetadata, Generator.mkGeneratorOptions, hne]

/-- Witness for C8 (corrected) on a concrete presentation. -/
theorem metadata_roundtrip_witness :
    (Generator.setMetadata exOptsDefault exPresEN).title = "Annual Report" ∧
    (Validator.validate exPresEN none exT0).documentTitle = "Annual Report" ∧
    (Generator.setMetadata exOptsDefault exPresEN).language = "de" := by
  have h := metadata_roundtrip exPresEN none none none none exT0
  exact ⟨h.1 (by decide), h.2.1 (by decide), h.2.2.1⟩

/-- C9 counterexample. A description of two spaces is whitespace-only, but the
decorative test of the parser compares against the exact strings "" and " ": the
element is classified not decorative with altTextStatus "missing", not
"decorative". -/
theorem whitespace_alt_not_decorative :
    jsTrim "  " = "" ∧
    Parser.classifyAlt (some "  ") none false "image" = (false, "missing") ∧
    ¬ (Parser.classifyAlt (some "  ") none false "image").2 = "decorative" := by
  decide

/-- C9 (corrected). A description that is exactly empty or exactly one space
is classified decorative with status "decorative"; any other whitespace-only
description yields isDecorative false (absent the vendor flag) and status
"missing" — in no whitespace-only case is the status "present". -/
theorem whitespace_alt_classification (descr : String) (title : Option String)
    (ext : Bool) (h : jsTrim descr = "") :
    ((descr = "" ∨ descr = " ") →
      Parser.classifyAlt (some descr) title ext "image" = (true, "decorative")) ∧
    ¬ (Parser.classifyAlt (some descr) title ext "image").2 = "present" := by
  constructor
  · intro hcase
    unfold Parser.classifyAlt Parser.extractAltText Parser.determineAltTextStatus
    rcases hcase with rfl | rfl <;> simp
  · unfold Parser.classifyAlt Parser.extractAltText Parser.determineAltTextStatus
    simp only [Bool.or_eq_true, beq_iff_eq, Option.some.injEq]
    by_cases hd : (ext = true ∨ descr = "") ∨ descr = " "
    · simp [hd]
    · have hne : ¬ descr = "" := fun hc => hd (Or.inl (Or.inr hc))
      rw [if_neg hd]
      simp [jsOrOpt, hne, h]

/-- Witness for C9 (corrected) at the single-space and double-space inputs. -/
theorem whitespace_alt_classification_witness :
    Parser.classifyAlt (some " ") none false "image" = (true, "decorative") ∧
    ¬ (Parser.classifyAlt (some "  ") none false "image").2 = "present" := by
  constructor
  · exact (whitespace_alt_classification " " none false (by decide)).1 (Or.inr rfl)
  · exact (whitespace_alt_classification "  " none false (by decide)).2

/-- C10 counterexample. A source table whose first row is empty but whose
second row has a cell has at least one row with at least one cell, yet the
parser derives hasHeaderRow false and emits a table_missing_headers warning
for it. -/
theorem table_empty_first_row_header_issue :
    (Parser.parseTableData [[], ["x"]]).hasHeaderRow = false ∧
    (∃ row ∈ [([] : List String), ["x"]], ¬ row = []) ∧
    (Parser.parseTableIssues [[], ["x"]] "tbl1" 1).map (fun i => i.type) =
      ["table_missing_headers"] := by
  decide

/-- C10 (corrected). For every table element built by the parser whose source
table has a nonempty first row, hasHeaderRow is true, the parser emits no
table_missing_headers issue, and the table check of the validator on the resulting
element emits no table_missing_headers issue either: the check can only fire
on tables whose first row is empty or on models not produced by this
parser. -/
theorem table_header_from_first_row (rows : List (List String)) (id : String)
    (position : Position) (slideNumber n : Nat) (h : ¬ rows.headD [] = []) :
    (Parser.parseTableData rows).hasHeaderRow = true ∧
    Parser.parseTableIssues rows id slideNumber = [] ∧
    ∀ i ∈ Validator.validateTableStructure
        (Parser.parseTable rows id position slideNumber) n,
      ¬ i.type = "table_missing_headers" := by
  have hrow : (Parser.parseTableData rows).hasHeaderRow = true := by
    simp only [Parser.parseTableData]
    exact decide_eq_true h
  refine ⟨hrow, ?_, ?_⟩
  · unfold Parser.parseTableIssues
    rw [if_neg]
    rintro ⟨h1, h2⟩
    exact h1 hrow
  · intro i hi
    unfold Validator.validateTableStructure Parser.parseTable at hi
    simp only at hi
    rw [if_neg (by rintro ⟨h1, h2, h3⟩; exact h1 hrow)] at hi
    simp only [List.nil_append] at hi
    split at hi
    · simp only [List.mem_singleton] at hi
      subst hi
      simp
    · simp at hi

/-- Witness for C10 (corrected) on a concrete two-row table. -/
theorem table_header_from_first_row_witness :
    (Parser.parseTableData [["Kopf"], ["Wert"]]).hasHeaderRow = true ∧
    Parser.parseTableIssues [["Kopf"], ["Wert"]] "tbl1" 1 = [] := by
  have h := table_header_from_first_row [["Kopf"], ["Wert"]] "tbl1" ⟨0, 0, 100, 50⟩ 1 1
    (by decide)
  exact ⟨h.1, h.2.1⟩

/-- The renderSlide loop together with the artifact branch: the structure
kids are exactly the rendered non-decorative ordered elements. -/
theorem renderKids_eq_filter_map (lang : Option String) (l : List SlideElement) :
    Generator.renderKids lang l =
      (l.filter (fun x => ¬ x.isDecorative)).map (Generator.renderElementStruct lang) := by
  induction l with
  | nil => rfl
  | cons e rest ih =>
    by_cases he : e.isDecorative
    · simp [Generator.renderKids, he, List.filter_cons, ih]
    · simp [Generator.renderKids, he, List.filter_cons, ih]

/-- C6. Decorative elements are excluded from the structure tree: the page
kids of the page node are exactly the structure nodes of the non-decorative ordered
elements, and an element with isDecorative true is not among the contributing
elements, so no node of the page carries its role, text or alt text. -/
theorem decorative_elements_excluded (lang : Option String) (s : Slide)
    (e : SlideElement) (h : e.isDecorative = true) :
    (Generator.renderSlideStructure lang s).kids =
      ((Generator.getOrderedElements s).filter (fun x => ¬ x.isDecorative)).map
        (Generator.renderElementStruct lang) ∧
    e ∉ (Generator.getOrderedElements s).filter (fun x => ¬ x.isDecorative) := by
  constructor
  · exact renderKids_eq_filter_map lang (Generator.getOrderedElements s)
  · intro hmem
    rw [List.mem_filter] at hmem
    simp [h] at hmem

/-- A decorative image element. -/
def exElDec : SlideElement :=
  { id := "deko", type := "image", position := ⟨0, 50, 10, 10⟩
  , content := {}, isDecorative := true }

/-- A slide carrying a decorative image and a title. -/
def exSlideDec : Slide :=
  { number := 1, id := "slide-1", elements := [exElDec, exTitle "t1" "Titel"]
  , readingOrder := ["deko", "t1"], readingOrderConfidence := 1 }

/-- Witness for C6 on a concrete slide with a decorative element. -/
theorem decorative_elements_excluded_witness :
    exElDec.isDecorative = true ∧
    exElDec ∉ (Generator.getOrderedElements exSlideDec).filter
      (fun x => ¬ x.isDecorative) :=
  ⟨rfl, (decorative_elements_excluded none exSlideDec exElDec rfl).2⟩

/-- A bare shape element with id "x". -/
def exElX : SlideElement :=
  { id := "x", type := "shape", position := ⟨0, 0, 10, 10⟩, content := {} }

/-- A slide whose readingOrder repeats the id of its only element; every entry
references an element of the slide. -/
def exSlideDup : Slide :=
  { number := 1, id := "slide-1", elements := [exElX]
  , readingOrder := ["x", "x"], readingOrderConfidence := 1 }

/-- C7 counterexample. On a slide whose readingOrder entries all reference
elements of the slide but repeat an id, the generator renders the referenced
element once per entry: the ordering is not a permutation of the elements of the slide — the element is rendered twice. -/
theorem reading_order_duplicate_render :
    (∀ id ∈ exSlideDup.readingOrder, ∃ e ∈ exSlideDup.elements, e.id = id) ∧
    Generator.getOrderedElements exSlideDup = [exElX, exElX] ∧
    ¬ List.Perm (Generator.getOrderedElements exSlideDup) exSlideDup.elements := by
  refine ⟨by decide, by decide, ?_⟩
  intro hp
  have := hp.length_eq
  simp [Generator.getOrderedElements, Generator.elementMapGet, exSlideDup, exElX] at this

/-- The id stored in the element found by the getOrderedElements map lookup is
the looked-up id, and the element belongs to the list. -/
theorem elementMapGet_mem_id {l : List SlideElement} {id : String} {e : SlideElement}
    (h : Generator.elementMapGet l id = some e) : e ∈ l ∧ e.id = id := by
  unfold Generator.elementMapGet at h
  refine ⟨List.mem_reverse.mp (List.mem_of_find?_eq_some h), ?_⟩
  have := List.find?_some h
  simpa using this

/-- When some element of the list carries the looked-up id, the map lookup
returns an element of the list carrying that id. -/
theorem elementMapGet_some_of_exists (l : List SlideElement) (id : String)
    (h : ∃ e ∈ l, e.id = id) :
    ∃ e, Generator.elementMapGet l id = some e ∧ e ∈ l ∧ e.id = id := by
  rcases h with ⟨e, he, hid⟩
  have h1 : (l.reverse.find? (fun x => x.id == id)).isSome := by
    rw [List.find?_isSome]
    exact ⟨e, List.mem_reverse.mpr he, by simp [hid]⟩
  rcases Option.isSome_iff_exists.mp h1 with ⟨f, hf⟩
  exact ⟨f, hf, (elementMapGet_mem_id hf).1, (elementMapGet_mem_id hf).2⟩

/-- When every readingOrder entry references an element, the ids of the looked
up prefix are exactly the readingOrder. -/
theorem filterMap_mapGet_ids (l : List SlideElement) (ro : List String)
    (h : ∀ id ∈ ro, ∃ e ∈ l, e.id = id) :
    (ro.filterMap (fun id => Generator.elementMapGet l id)).map (fun e => e.id) = ro := by
  induction ro with
  | nil => rfl
  | cons a rest ih =>
    rcases elementMapGet_some_of_exists l a (h a (List.mem_cons_self a rest)) with
      ⟨e, hsome, hmem, hid⟩
    rw [List.filterMap_cons, hsome, List.map_cons, hid,
      ih (fun id hid2 => h id (List.mem_cons_of_mem a hid2))]

/-- Membership in the looked-up prefix, under distinct element ids. -/
theorem mem_filterMap_mapGet {l : List SlideElement} {ro : List String}
    (hids : (l.map (fun e => e.id)).Nodup) (e : SlideElement) :
    e ∈ ro.filterMap (fun id => Generator.elementMapGet l id) ↔
      e ∈ l ∧ e.id ∈ ro := by
  constructor
  · intro h
    rcases List.mem_filterMap.mp h with ⟨id, hidro, hsome⟩
    rcases elementMapGet_mem_id hsome with ⟨hmem, hid⟩
    exact ⟨hmem, hid ▸ hidro⟩
  · rintro ⟨hmem, hidro⟩
    rcases elementMapGet_some_of_exists l e.id ⟨e, hmem, rfl⟩ with ⟨f, hsome, hfmem, hfid⟩
    have hfe : f = e := List.inj_on_of_nodup_map hids hfmem hmem hfid
    exact List.mem_filterMap.mpr ⟨e.id, hidro, hfe ▸ hsome⟩

/-- C7 (corrected). When every readingOrder entry references an element of the
slide AND the element ids are distinct AND the readingOrder repeats no id, the
generator ordering is a permutation of the elements of the slide, its ids start
with the readingOrder in order, and the remaining elements follow in encounter
order: nothing is rendered twice or dropped.  The distinctness hypotheses are
necessary: the counterexample shows a repeated readingOrder entry renders an
element twice. -/
theorem reading_order_permutation (s : Slide)
    (hro : ∀ id ∈ s.readingOrder, ∃ e ∈ s.elements, e.id = id)
    (hids : (s.elements.map (fun e => e.id)).Nodup)
    (hnd : s.readingOrder.Nodup) :
    List.Perm (Generator.getOrderedElements s) s.elements ∧
    (Generator.getOrderedElements s).map (fun e => e.id) =
      s.readingOrder ++
        (s.elements.filter (fun e => !(s.readingOrder.contains e.id))).map
          (fun e => e.id) := by
  have hidseq := filterMap_mapGet_ids s.elements s.readingOrder hro
  constructor
  · have hnd1 : (s.readingOrder.filterMap
        (fun id => Generator.elementMapGet s.elements id)).Nodup :=
      List.Nodup.of_map _ (hidseq ▸ hnd)
    have hnd2 : (s.elements.filter
        (fun e => s.readingOrder.contains e.id)).Nodup :=
      (List.Nodup.of_map _ hids).filter _
    have hperm1 : List.Perm
        (s.readingOrder.filterMap (fun id => Generator.elementMapGet s.elements id))
        (s.elements.filter (fun e => s.readingOrder.contains e.id)) := by
      refine List.perm_of_nodup_nodup_toFinset_eq hnd1 hnd2 ?_
      ext x
      simp only [List.mem_toFinset, mem_filterMap_mapGet hids, List.mem_filter,
        List.elem_iff]
    show List.Perm
      ((s.readingOrder.filterMap (fun id => Generator.elementMapGet s.elements id)) ++
        (s.elements.filter (fun e => !(s.readingOrder.contains e.id)))) s.elements
    exact (hperm1.append_right _).trans
      (List.filter_append_perm (fun e => s.readingOrder.contains e.id) s.elements)
  · show ((s.readingOrder.filterMap (fun id => Generator.elementMapGet s.elements id)) ++
      (s.elements.filter (fun e => !(s.readingOrder.contains e.id)))).map (fun e => e.id) =
      _
    rw [List.map_append, hidseq]

/-- Witness for C7 (corrected) on a concrete slide with distinct ids. -/
theorem reading_order_permutation_witness :
    List.Perm (Generator.getOrderedElements exSlideDec) exSlideDec.elements ∧
    (Generator.getOrderedElements exSlideDec).map (fun e => e.id) = ["deko", "t1"] := by
  have h := reading_order_permutation exSlideDec (by decide) (by decide) (by decide)
  refine ⟨h.1, ?_⟩
  rw [h.2]
  decide

/-- A shape at the top-left, overlapping exElB. -/
def exElA : SlideElement :=
  { id := "a", type := "shape", position := ⟨0, 0, 50, 50⟩
  , content := { text := some "Form A" } }

/-- A shape overlapping exElA. -/
def exElB : SlideElement :=
  { id := "b", type := "shape", position := ⟨25, 25, 50, 50⟩
  , content := { text := some "Form B" } }

/-- A slide with the two overlapping shapes in order a, b. -/
def exSlideP : Slide :=
  { number := 1, id := "slide-1", elements := [exElA, exElB]
  , readingOrder := ["a", "b"], readingOrderConfidence := 1 }

/-- The same slide with the two elements transposed; the fields of every
element are unchanged. -/
def exSlideQ : Slide :=
  { number := 1, id := "slide-1", elements := [exElB, exElA]
  , readingOrder := ["a", "b"], readingOrderConfidence := 1 }

/-- Presentation around exSlideP. -/
def exPresP : Presentation :=
  { metadata := { title := "T", language := "de", author := some "A" }
  , slides := [exSlideP] }

/-- Presentation around exSlideQ. -/
def exPresQ : Presentation :=
  { metadata := { title := "T", language := "de", author := some "A" }
  , slides := [exSlideQ] }

/-- C4 counterexample. Transposing two overlapping elements — a permutation
that changes no field of any element — changes the id of the
overlapping_elements issue: the validator emits slide-1-overlap-a-b on one
order and slide-1-overlap-b-a on the other, so an issue id is not a function
of check type, slide number and element id alone. -/
theorem overlap_issue_id_order_dependent :
    List.Perm exSlideQ.elements exSlideP.elements ∧
    exSlideQ.number = exSlideP.number ∧
    exSlideQ.readingOrder = exSlideP.readingOrder ∧
    ((Validator.validate exPresP none exT0).issues.map (fun i => i.id)).contains
      "slide-1-overlap-a-b" = true ∧
    ((Validator.validate exPresQ none exT0).issues.map (fun i => i.id)).contains
      "slide-1-overlap-a-b" = false ∧
    ((Validator.validate exPresQ none exT0).issues.map (fun i => i.id)).contains
      "slide-1-overlap-b-a" = true := by
  decide

/-- The ids of all issues of a list except the overlapping_elements issues,
whose ids embed two element ids in list order. -/
def nonOverlapIds (issues : List Issue) : List String :=
  (issues.filter (fun i => !(i.type == "overlapping_elements"))).map (fun i => i.id)

/-- Two slides equal in every field except that the elements list of one is a
permutation of the other: the fields of each element are unchanged. -/
def ElemPermSlide (s t : Slide) : Prop :=
  s.number = t.number ∧ s.id = t.id ∧ s.layout = t.layout ∧
  List.Perm s.elements t.elements ∧ s.readingOrder = t.readingOrder ∧
  s.readingOrderConfidence = t.readingOrderConfidence ∧
  s.backgroundElements = t.backgroundElements ∧ s.issues = t.issues

/-- Two presentations equal in every field except that within each slide the
elements are permuted. -/
def ElemPermPres (p q : Presentation) : Prop :=
  p.metadata = q.metadata ∧ p.issues = q.issues ∧ p.stats = q.stats ∧
  List.Forall₂ ElemPermSlide p.slides q.slides

/-- nonOverlapIds distributes over issue-list concatenation. -/
theorem nonOverlapIds_append (a b : List Issue) :
    nonOverlapIds (a ++ b) = nonOverlapIds a ++ nonOverlapIds b := by
  simp [nonOverlapIds, List.filter_append]

/-- nonOverlapIds respects permutation of the issue list. -/
theorem nonOverlapIds_perm {a b : List Issue} (h : List.Perm a b) :
    List.Perm (nonOverlapIds a) (nonOverlapIds b) :=
  (h.filter _).map _

/-- nonOverlapIds distributes over flatMap. -/
theorem nonOverlapIds_flatMap {α : Type} (f : α → List Issue) (l : List α) :
    nonOverlapIds (l.flatMap f) = l.flatMap (fun x => nonOverlapIds (f x)) := by
  induction l with
  | nil => rfl
  | cons a rest ih => simp only [List.flatMap_cons, nonOverlapIds_append, ih]

/-- A filter discarding the overlap type annihilates any list of issues that
all carry the overlap type. -/
theorem filter_map_overlap_nil {α : Type} (l : List α) (f : α → Issue)
    (hf : ∀ x, (f x).type = "overlapping_elements") :
    (l.map f).filter (fun i => !(i.type == "overlapping_elements")) = [] := by
  induction l with
  | nil => rfl
  | cons a rest ih => simp [List.filter_cons, hf a, ih]

/-- Document-level checks read only the metadata. -/
theorem validateDocument_congr (p q : Presentation) (h : p.metadata = q.metadata) :
    Validator.validateDocument p = Validator.validateDocument q := by
  unfold Validator.validateDocument
  rw [h]

/-- The slide-title check depends only on the slide number and on whether a
nonempty-titled element exists, which a permutation of the elements cannot
change. -/
theorem validateSlideTitle_congr (s t : Slide) (hnum : s.number = t.number)
    (hperm : List.Perm s.elements t.elements) :
    Validator.validateSlideTitle s = Validator.validateSlideTitle t := by
  unfold Validator.validateSlideTitle
  by_cases hex : ∃ x ∈ s.elements,
      (fun e => decide (e.type = "title" ∧ ¬ jsTrim (jsOr e.content.text "") = "")) x = true
  · have hs : (s.elements.find?
        (fun e => decide (e.type = "title" ∧ ¬ jsTrim (jsOr e.content.text "") = ""))).isSome :=
      List.find?_isSome.mpr hex
    have ht : (t.elements.find?
        (fun e => decide (e.type = "title" ∧ ¬ jsTrim (jsOr e.content.text "") = ""))).isSome := by
      rcases hex with ⟨x, hx, hp⟩
      exact List.find?_isSome.mpr ⟨x, hperm.subset hx, hp⟩
    rcases Option.isSome_iff_exists.mp hs with ⟨e1, he1⟩
    rcases Option.isSome_iff_exists.mp ht with ⟨e2, he2⟩
    rw [he1, he2]
  · have hall : ∀ x ∈ s.elements,
        ¬ (fun e => decide (e.type = "title" ∧ ¬ jsTrim (jsOr e.content.text "") = "")) x = true :=
      fun x hx hp => hex ⟨x, hx, hp⟩
    have hs : s.elements.find?
        (fun e => decide (e.type = "title" ∧ ¬ jsTrim (jsOr e.content.text "") = "")) = none :=
      List.find?_eq_none.mpr hall
    have ht : t.elements.find?
        (fun e => decide (e.type = "title" ∧ ¬ jsTrim (jsOr e.content.text "") = "")) = none :=
      List.find?_eq_none.mpr (fun x hx hp => hall x (hperm.mem_iff.mpr hx) hp)
    rw [hs, ht, hnum]

/-- The non-overlap ids of the reading-order check reduce to the low-confidence
warning alone: every overlap issue is filtered away. -/
theorem nonOverlapIds_validateReadingOrder (s : Slide) :
    nonOverlapIds (Validator.validateReadingOrder s) =
      if s.readingOrderConfidence < ratSevenTenths then
        [s!"slide-{s.number}-order-uncertain"]
      else [] := by
  unfold Validator.validateReadingOrder nonOverlapIds
  rw [List.filter_append, List.map_append,
    filter_map_overlap_nil (Validator.findOverlappingElements s.elements) _ (fun pr => rfl)]
  by_cases hc : s.readingOrderConfidence < ratSevenTenths
  · rw [if_pos hc, if_pos hc]
    simp [List.filter_cons]
  · rw [if_neg hc, if_neg hc]
    simp

/-- Membership in the key accumulation of groupKeys. -/
theorem groupKeys_go_mem (l : List SlideElement) (acc : List Int) (k : Int) :
    k ∈ l.foldl (fun acc e => if acc.contains (Validator.quantE e) then acc
        else acc ++ [Validator.quantE e]) acc ↔
      k ∈ acc ∨ k ∈ l.map Validator.quantE := by
  induction l generalizing acc with
  | nil => simp
  | cons e rest ih =>
    rw [List.foldl_cons]
    by_cases hc : acc.contains (Validator.quantE e)
    · rw [if_pos hc, ih]
      have hq : Validator.quantE e ∈ acc := List.elem_iff.mp hc
      rw [List.map_cons, List.mem_cons]
      constructor
      · rintro (h | h)
        · exact Or.inl h
        · exact Or.inr (Or.inr h)
      · rintro (h | h | h)
        · exact Or.inl h
        · exact Or.inl (h ▸ hq)
        · exact Or.inr h
    · rw [if_neg hc, ih]
      simp [or_assoc]

/-- The key accumulation of groupKeys preserves distinctness. -/
theorem groupKeys_go_nodup (l : List SlideElement) (acc : List Int) (h : acc.Nodup) :
    (l.foldl (fun acc e => if acc.contains (Validator.quantE e) then acc
        else acc ++ [Validator.quantE e]) acc).Nodup := by
  induction l generalizing acc with
  | nil => exact h
  | cons e rest ih =>
    rw [List.foldl_cons]
    by_cases hc : acc.contains (Validator.quantE e)
    · rw [if_pos hc]
      exact ih acc h
    · rw [if_neg hc]
      refine ih _ ?_
      have hnm : Validator.quantE e ∉ acc := fun hm => hc (List.elem_iff.mpr hm)
      simp [List.nodup_append, h, hnm]

/-- The keys of the pseudo-table grouping are the quantized bands occurring in
the list. -/
theorem groupKeys_mem (l : List SlideElement) (k : Int) :
    k ∈ Validator.groupKeys l ↔ k ∈ l.map Validator.quantE := by
  unfold Validator.groupKeys
  rw [groupKeys_go_mem]
  simp

/-- The keys of the pseudo-table grouping are distinct. -/
theorem groupKeys_nodup (l : List SlideElement) : (Validator.groupKeys l).Nodup := by
  unfold Validator.groupKeys
  exact groupKeys_go_nodup l [] List.nodup_nil

/-- Permuting the grouped elements permutes the key list. -/
theorem groupKeys_perm {l l2 : List SlideElement} (h : List.Perm l l2) :
    List.Perm (Validator.groupKeys l) (Validator.groupKeys l2) := by
  refine List.perm_of_nodup_nodup_toFinset_eq (groupKeys_nodup l) (groupKeys_nodup l2) ?_
  ext k
  simp only [List.mem_toFinset, groupKeys_mem, (h.map Validator.quantE).mem_iff]

/-- The band sizes of the pseudo-table grouping. -/
def rowSizes (l : List SlideElement) : List Nat :=
  (Validator.groupByY l).map (fun pr => pr.2.length)

/-- The band sizes are the per-key member counts. -/
theorem rowSizes_eq (l : List SlideElement) :
    rowSizes l = (Validator.groupKeys l).map
      (fun k => (l.filter (fun e => Validator.quantE e = k)).length) := by
  unfold rowSizes Validator.groupByY
  rw [List.map_map]
  rfl

/-- Permuting the grouped elements permutes the band sizes. -/
theorem rowSizes_perm {l l2 : List SlideElement} (h : List.Perm l l2) :
    List.Perm (rowSizes l) (rowSizes l2) := by
  rw [rowSizes_eq, rowSizes_eq]
  have heq : (Validator.groupKeys l2).map
      (fun k => (l.filter (fun e => Validator.quantE e = k)).length) =
      (Validator.groupKeys l2).map
      (fun k => (l2.filter (fun e => Validator.quantE e = k)).length) :=
    List.map_congr_left (fun k _ => (h.filter _).length_eq)
  exact heq ▸ ((groupKeys_perm h).map _)

/-- Transfer of the all-bands-equal grid condition along a permutation of the
band sizes, also fixing the common head value. -/
theorem grid_cond_transfer {a b : List Nat} (h : List.Perm a b)
    (h1 : a.length > 1) (h2 : ∀ x ∈ a, x = a.headD 0) (h3 : a.headD 0 ≥ 2) :
    b.length > 1 ∧ (∀ x ∈ b, x = b.headD 0) ∧ b.headD 0 ≥ 2 ∧
      b.headD 0 = a.headD 0 := by
  have hlen := h.length_eq
  cases a with
  | nil => simp at h1
  | cons a0 as =>
    cases b with
    | nil => simp at hlen
    | cons b0 bs =>
      have hb0 : b0 = a0 := by
        have hmem : b0 ∈ a0 :: as := h.symm.subset (List.mem_cons_self b0 bs)
        simpa using h2 b0 hmem
      simp only [List.headD_cons] at h2 h3 ⊢
      refine ⟨?_, ?_, ?_, hb0⟩
      · have hlen2 : (b0 :: bs).length = (a0 :: as).length := hlen.symm
        simp only [List.length_cons] at hlen2 h1 ⊢
        omega
      · intro x hx
        have := h2 x (h.symm.subset hx)
        rw [this, hb0]
      · rw [hb0]; exact h3

/-- The pseudo-table grid condition is invariant under permutation of the
textboxes. -/
theorem pseudoTableCond_iff {l l2 : List SlideElement} (h : List.Perm l l2) :
    Validator.pseudoTableCond l ↔ Validator.pseudoTableCond l2 := by
  constructor
  · rintro ⟨h1, h2, h3, h4⟩
    obtain ⟨g1, g2, g3, ghead⟩ := grid_cond_transfer (rowSizes_perm h) h1 h2 h4
    refine ⟨g1, g2, ?_, g3⟩
    have hl : (Validator.groupByY l2).length = (rowSizes l2).length :=
      (List.length_map _ _).symm
    rw [hl]
    omega
  · rintro ⟨h1, h2, h3, h4⟩
    obtain ⟨g1, g2, g3, ghead⟩ := grid_cond_transfer (rowSizes_perm h.symm) h1 h2 h4
    refine ⟨g1, g2, ?_, g3⟩
    have hl : (Validator.groupByY l).length = (rowSizes l).length :=
      (List.length_map _ _).symm
    rw [hl]
    omega

/-- The pseudo-table check emits the same issue list on permuted elements:
its condition, band count and column count are permutation-invariant. -/
theorem validatePseudoTables_congr (s t : Slide) (hnum : s.number = t.number)
    (hperm : List.Perm s.elements t.elements) :
    Validator.validatePseudoTables s = Validator.validatePseudoTables t := by
  unfold Validator.validatePseudoTables
  simp only []
  have hfil : List.Perm (s.elements.filter (fun e => e.type == "textbox"))
      (t.elements.filter (fun e => e.type == "textbox")) := hperm.filter _
  have hlen := hfil.length_eq
  rw [hlen, hnum]
  by_cases h4 : (t.elements.filter (fun e => e.type == "textbox")).length < 4
  · rw [if_pos h4, if_pos h4]
  · rw [if_neg h4, if_neg h4]
    by_cases hc : Validator.pseudoTableCond (t.elements.filter (fun e => e.type == "textbox"))
    · have hcs : Validator.pseudoTableCond (s.elements.filter (fun e => e.type == "textbox")) :=
        (pseudoTableCond_iff hfil).mpr hc
      rw [if_pos hcs, if_pos hc]
      have hrows : (Validator.groupByY (s.elements.filter (fun e => e.type == "textbox"))).length =
          (Validator.groupByY (t.elements.filter (fun e => e.type == "textbox"))).length := by
        unfold Validator.groupByY
        rw [List.length_map, List.length_map]
        exact (groupKeys_perm hfil).length_eq
      have hcols : ((Validator.groupByY (s.elements.filter (fun e => e.type == "textbox"))).map
            (fun r => r.2.length)).headD 0 =
          ((Validator.groupByY (t.elements.filter (fun e => e.type == "textbox"))).map
            (fun r => r.2.length)).headD 0 := by
        obtain ⟨c1, c2, c3, c4⟩ := hcs
        obtain ⟨g1, g2, g3, ghead⟩ := grid_cond_transfer (rowSizes_perm hfil) c1 c2 c4
        exact ghead.symm
      rw [hrows, hcols]
    · rw [if_neg (fun hcs => hc ((pseudoTableCond_iff hfil).mp hcs)), if_neg hc]

/-- Per slide, the non-overlap issue ids of the slide checks are permuted when
the elements are permuted. -/
theorem nonOverlapIds_validateSlide_perm (s t : Slide) (h : ElemPermSlide s t) :
    List.Perm (nonOverlapIds (Validator.validateSlide s))
      (nonOverlapIds (Validator.validateSlide t)) := by
  obtain ⟨hnum, hid, hlay, hperm, hro, hconf, hbg, hiss⟩ := h
  unfold Validator.validateSlide
  simp only [nonOverlapIds_append]
  refine List.Perm.append (List.Perm.append (List.Perm.append
    (List.Perm.append ?_ ?_) ?_) ?_) ?_
  · rw [validateSlideTitle_congr s t hnum hperm]
  · rw [nonOverlapIds_validateReadingOrder, nonOverlapIds_validateReadingOrder,
      hconf, hnum]
  · rw [nonOverlapIds_flatMap, nonOverlapIds_flatMap, hnum]
    exact hperm.flatMap_right _
  · rw [validatePseudoTables_congr s t hnum hperm]
  · rw [hbg, hnum]

/-- Slides related pairwise by element permutation yield permuted non-overlap
ids in the per-slide checks. -/
theorem nonOverlapIds_slides_perm {ss ts : List Slide}
    (h : List.Forall₂ ElemPermSlide ss ts) :
    List.Perm (nonOverlapIds (ss.flatMap Validator.validateSlide))
      (nonOverlapIds (ts.flatMap Validator.validateSlide)) := by
  induction h with
  | nil => exact List.Perm.refl _
  | cons hst hrest ih =>
    simp only [List.flatMap_cons, nonOverlapIds_append]
    exact (nonOverlapIds_validateSlide_perm _ _ hst).append ih

/-- The collected model-carried issues have permuted non-overlap ids when
the elements of each slide are permuted. -/
theorem nonOverlapIds_collect_slides_perm {ss ts : List Slide}
    (h : List.Forall₂ ElemPermSlide ss ts) :
    List.Perm
      (nonOverlapIds (ss.flatMap
        (fun s => s.issues ++ s.elements.flatMap (fun e => e.issues))))
      (nonOverlapIds (ts.flatMap
        (fun s => s.issues ++ s.elements.flatMap (fun e => e.issues)))) := by
  induction h with
  | nil => exact List.Perm.refl _
  | cons hst hrest ih =>
    simp only [List.flatMap_cons, nonOverlapIds_append]
    refine List.Perm.append ?_ ih
    obtain ⟨hnum2, hid2, hlay2, hperm2, hro2, hconf2, hbg2, hsiss2⟩ := hst
    rw [hsiss2]
    refine List.Perm.append (List.Perm.refl _) ?_
    rw [nonOverlapIds_flatMap, nonOverlapIds_flatMap]
    exact hperm2.flatMap_right _

/-- C4 (corrected). For every permutation of the elements within the slides
that changes no field of any element, the multiset of issue ids the
validator produces is unchanged except for the overlapping_elements ids, whose
ids embed the two element ids in list order (see the counterexample): the
non-overlap ids of the full collection are a permutation of each other. -/
theorem issue_ids_stable_modulo_overlap (p q : Presentation) (h : ElemPermPres p q) :
    List.Perm (nonOverlapIds (Validator.allIssues p))
      (nonOverlapIds (Validator.allIssues q)) := by
  obtain ⟨hmeta, hiss, hstats, hslides⟩ := h
  unfold Validator.allIssues
  simp only [nonOverlapIds_append]
  refine List.Perm.append (List.Perm.append ?_ ?_) ?_
  · rw [validateDocument_congr p q hmeta]
  · exact nonOverlapIds_slides_perm hslides
  · unfold Validator.collectPresentationIssues
    simp only [nonOverlapIds_append]
    rw [hiss]
    exact (List.Perm.refl _).append (nonOverlapIds_collect_slides_perm hslides)

/-- Witness for C4 (corrected) on the concrete transposed pair. -/
theorem issue_ids_stable_modulo_overlap_witness :
    List.Perm (nonOverlapIds (Validator.allIssues exPresP))
      (nonOverlapIds (Validator.allIssues exPresQ)) :=
  issue_ids_stable_modulo_overlap exPresP exPresQ
    ⟨rfl, rfl, rfl,
     List.Forall₂.cons ⟨rfl, rfl, rfl, by decide, rfl, rfl, rfl, rfl⟩ List.Forall₂.nil⟩
